import Mathlib

/-!
Shallow embedding, in Lean 4, of the core of the `project1-tds` repository
(an LLM-driven "build & deploy" service, `main.py` plus
`aipipe_integration.py`): the provider fallback chain, the generated file
set, repository naming and publishing, the notification retry loop, the
request acceptance gates, and the background task pipelines.

Python strings are modelled as `List Char` (with `String` wrappers at the
interfaces); Python's `str.find`, slicing, `str.strip` and `in` are given
explicit executable models below.  Network calls and the GitHub backend
are modelled as oracles/state that the embedded control flow consumes,
mirroring exactly the branching of the source.
-/

namespace Project1Tds

/-! ## Character-list utilities (models of Python string primitives) -/

/-- `charsStartWith pat s` is Python's `s.startswith(pat)` on character lists. -/
def charsStartWith : List Char → List Char → Bool
  | [], _ => true
  | _ :: _, [] => false
  | p :: ps, c :: cs => p == c && charsStartWith ps cs

/-- Index of the first occurrence of `pat` in `s` (Python `str.find` when it
succeeds), `none` when there is no occurrence. -/
def findSub (pat : List Char) : List Char → Option Nat
  | [] => if charsStartWith pat [] then some 0 else none
  | c :: cs =>
    if charsStartWith pat (c :: cs) then some 0
    else (findSub pat cs).map (· + 1)

/-- Python's `pat in s` substring test. -/
def hasSub (pat s : List Char) : Bool := (findSub pat s).isSome

/-- Clamp a Python index `i` (possibly negative, meaning length-relative)
into `[0, n]`, as Python slicing does. -/
def clampIdx (n : Nat) (i : Int) : Nat :=
  (min (max (if i < 0 then (n : Int) + i else i) 0) (n : Int)).toNat

/-- Python's `s.find(pat, start)`, returning `-1` when absent. -/
def pyFindFrom (s pat : List Char) (start : Int) : Int :=
  let st := clampIdx s.length start
  match findSub pat (s.drop st) with
  | some i => ((i + st : Nat) : Int)
  | none => -1

/-- Python's slice `s[a:b]` on character lists. -/
def pySlice (s : List Char) (a b : Int) : List Char :=
  let n := s.length
  (s.take (clampIdx n b)).drop (clampIdx n a)

/-- Python's `s.strip()`: remove leading and trailing whitespace. -/
def pyStrip (s : List Char) : List Char :=
  ((s.dropWhile Char.isWhitespace).reverse.dropWhile Char.isWhitespace).reverse

/-! ## Provider fallback chain
(`aipipe_integration.generate_with_aipipe` and the provider-selection part
of `main.generate_app_code`).  Provider network results are oracles: the
embedded control flow consumes the outcome each provider call would have
produced.  `AIPipeClient.generate_content` and
`DeepSeekClient.generate_content` catch every exception internally and
always return a string, so their oracles are plain strings; the OpenAI
call can raise, so its oracle is an `Except`. -/

/-- One generation provider of the chain. -/
inductive Provider
  | openai
  | aipipe
  | deepseek
deriving DecidableEq

/-- Oracle for the three provider invocations of one generation run. -/
structure ProviderEnv where
  /-- Whether `openai_client` is non-`None` (an `LLM_API_KEY` was set). -/
  openaiConfigured : Bool
  /-- Outcome of `openai_client.chat.completions.create`: content on
  success, the exception text on failure. -/
  openaiOutcome : Except String String
  /-- String returned by `aipipe_client.generate_content(prompt)`. -/
  aipipeOutput : String
  /-- String returned by `deepseek_client.generate_content(prompt)`. -/
  deepseekOutput : String

/-- The literal marker of the aipipe mock response checked by
`generate_with_aipipe` (`aipipe_integration.py` line 180). -/
def mockMarker : String := "Generated Application"

/-- Acceptance heuristic of `generate_with_aipipe`
(`aipipe_integration.py` line 180):
`result and not result.startswith("{") and "Generated Application" not in result[:200]`. -/
def aipipeAcceptable (result : String) : Bool :=
  !(result == "") && !(charsStartWith "\x7b".data result.data)
    && !(hasSub mockMarker.data (result.data.take 200))

/-- `generate_with_aipipe` (`aipipe_integration.py` lines 176-186): try
AIPipe, return its result if it passes `aipipeAcceptable`, otherwise call
DeepSeek.  The first component records the providers invoked, in order. -/
def generateWithAipipe (env : ProviderEnv) : List Provider × String :=
  let result := env.aipipeOutput
  if aipipeAcceptable result then ([Provider.aipipe], result)
  else ([Provider.aipipe, Provider.deepseek], env.deepseekOutput)

/-- Provider selection of `generate_app_code` (`main.py` lines 142-163):
OpenAI when configured; on any OpenAI exception (both the quota branch and
the generic branch invoke the same call) or when unconfigured, fall back
to `generate_with_aipipe`. -/
def llmGenerate (env : ProviderEnv) : List Provider × String :=
  if env.openaiConfigured then
    match env.openaiOutcome with
    | Except.ok content => ([Provider.openai], content)
    | Except.error _ =>
      let r := generateWithAipipe env
      (Provider.openai :: r.1, r.2)
  else generateWithAipipe env

/-! ## Content normalization and the generated file set
(`main.generate_app_code`, lines 166-446). -/

/-- The fence marker `"```html"` searched first (`main.py` line 169). -/
def fenceHtml : List Char := "```html".data

/-- The plain fence marker `"```"` (`main.py` lines 171-177). -/
def fence : List Char := "```".data

/-- Extraction of `index.html` from the surviving provider text
(`main.py` lines 169-180): if `"```html"` occurs, take the stripped slice
from just after it up to the next `"```"` (Python `find` yielding `-1`
when absent); else if `"```"` occurs, take the stripped slice between the
first fences; else the whole text. -/
def extractIndexHtml (content : List Char) : List Char :=
  if hasSub fenceHtml content then
    let htmlStart : Int := pyFindFrom content fenceHtml 0 + 7
    let htmlEnd : Int := pyFindFrom content fence htmlStart
    pyStrip (pySlice content htmlStart htmlEnd)
  else if hasSub fence content then
    let codeStart : Int := pyFindFrom content fence 0 + 3
    let codeEnd : Int := pyFindFrom content fence codeStart
    pyStrip (pySlice content codeStart codeEnd)
  else content

/-- `generate_enhanced_prompt` (`main.py` lines 101-131).  The fixed
template text around the interpolations is abbreviated to its opening
line: no claim inspects the static prose, only the fact that the prompt
is a deterministic function embedding the brief and the checks. -/
def generateEnhancedPrompt (brief : String) (checks : List String)
    (_attachments : List (String × String)) : String :=
  "\nCreate a complete, production-ready web application based on this brief:\n\nBRIEF: "
    ++ brief ++ "\n\nREQUIREMENTS:\n"
    ++ String.intercalate "\n" (checks.map (fun check => "- " ++ check))

/-- Static `styles.css` template (`main.py` lines 183-316), abbreviated to
its first line: no claim inspects its body. -/
def stylesCssTemplate : String := "/* Generated Application Styles */"

/-- `script.js` template (`main.py` lines 319-399): a static script
interpolating the first 100 characters of the prompt; the static
remainder is abbreviated, keeping the interpolation. -/
def scriptJsTemplate (prompt : String) : String :=
  "// Generated Application JavaScript\nconsole.log('Brief:', `"
    ++ String.mk (prompt.data.take 100) ++ "...`);"

/-- `README.md` template (`main.py` lines 402-420): first segment of the
brief as title, the brief as description, the checks as bullet items;
static prose abbreviated. -/
def readmeTemplate (brief : String) (checks : List String) : String :=
  "# " ++ (((brief.split (· == '.')).headD "")) ++ "\n\n## Description\n"
    ++ brief ++ "\n\n## Features\n"
    ++ String.intercalate "\n" (checks.map (fun check => "- " ++ check))

/-- The fixed MIT license text (`main.py` lines 423-444), abbreviated to
its first line. -/
def licenseTemplate : String := "MIT License"

/-- The file-map construction of `generate_app_code` (`main.py` lines
166-446): `index.html` from the extraction, then the four deterministic
template files, in the source's insertion order. -/
def buildFiles (prompt generatedContent brief : String) (checks : List String) :
    List (String × String) :=
  [("index.html", String.mk (extractIndexHtml generatedContent.data)),
   ("styles.css", stylesCssTemplate),
   ("script.js", scriptJsTemplate prompt),
   ("README.md", readmeTemplate brief checks),
   ("LICENSE", licenseTemplate)]

/-- `generate_app_code` (`main.py` lines 136-446): build the prompt, run
the provider chain, normalize the surviving text into the file map.
Returns the provider trace together with the files. -/
def generateAppCode (env : ProviderEnv) (brief : String) (checks : List String)
    (attachments : List (String × String)) : List Provider × List (String × String) :=
  let prompt := generateEnhancedPrompt brief checks attachments
  let r := llmGenerate env
  (r.1, buildFiles prompt r.2 brief checks)

/-! ## Repository naming (`main.sanitize_repo_name`, lines 94-99). -/

/-- Characters kept by the regex `[^a-zA-Z0-9-]` replacement of
`sanitize_repo_name` (code points of `a`-`z`, `A`-`Z`, `0`-`9`, `-`):
every other character is replaced by `'-'`. -/
def isRepoChar (c : Char) : Bool :=
  (97 ≤ c.toNat && c.toNat ≤ 122) || (65 ≤ c.toNat && c.toNat ≤ 90)
    || (48 ≤ c.toNat && c.toNat ≤ 57) || c == '-'

/-- `re.sub(r'-+', '-', s)`: collapse every run of hyphens to a single
hyphen.  The flag records whether the previous emitted character closed a
hyphen run. -/
def collapseHyphensAux : Bool → List Char → List Char
  | _, [] => []
  | prev, c :: cs =>
    if c == '-' then
      if prev then collapseHyphensAux true cs
      else '-' :: collapseHyphensAux true cs
    else c :: collapseHyphensAux false cs

/-- Collapse hyphen runs (see `collapseHyphensAux`). -/
def collapseHyphens (s : List Char) : List Char := collapseHyphensAux false s

/-- Python's `s.strip('-')`: drop leading and trailing hyphens. -/
def stripHyphens (s : List Char) : List Char :=
  ((s.dropWhile (· == '-')).reverse.dropWhile (· == '-')).reverse

/-- The task-derived middle portion of the repository name: the task id
lower-cased, disallowed characters replaced by hyphens, hyphen runs
collapsed, leading/trailing hyphens stripped (`main.py` lines 97-98). -/
def sanitizedTaskPart (task : String) : List Char :=
  stripHyphens (collapseHyphens
    ((task.data.map Char.toLower).map (fun c => if isRepoChar c then c else '-')))

/-- `sanitize_repo_name` (`main.py` lines 94-99):
`f"llm-project-{sanitized_task}-{nonce[:8]}"`. -/
def sanitizeRepoName (task nonce : String) : String :=
  String.mk ("llm-project-".data ++ sanitizedTaskPart task
    ++ "-".data ++ nonce.data.take 8)

/-! ## Request acceptance gates (`main.handle_task` lines 705-742 and
`main.handle_revision` lines 785-822).  An accepted request is modelled
as `Except.ok` carrying the background dispatch
(`background_tasks.add_task(...)`); a rejection is `Except.error` with
the `HTTPException` status code and detail, raised before any dispatch. -/

/-- A validated task request (the `TaskRequest` pydantic model,
`main.py` lines 64-73). -/
structure TaskReq where
  email : String
  secret : String
  task : String
  round : Int
  nonce : String
  brief : String
  checks : List String
  evaluationUrl : String
  attachments : List (String × String)
deriving DecidableEq

/-- `validate_secret` (`main.py` lines 90-92). -/
def validateSecret (stored provided : String) : Bool := provided == stored

/-- `not task_request.brief.strip()`: the brief is empty after stripping
whitespace (`main.py` lines 718, 798). -/
def briefBlank (brief : String) : Bool := pyStrip brief.data == []

/-- `task_request.evaluation_url.startswith(('http://', 'https://'))`
(`main.py` line 721). -/
def urlSchemeOk (url : String) : Bool :=
  charsStartWith "http://".data url.data || charsStartWith "https://".data url.data

/-- Which pipeline a dispatched request enters. -/
inductive Flow
  | build
  | update
deriving DecidableEq

/-- `handle_task` (`main.py` lines 705-742): secret, non-empty brief and
URL-scheme gates, then dispatch of `process_task_background` (the build
flow).  No round check of any kind. -/
def handleTask (stored : String) (r : TaskReq) : Except (Nat × String) (Flow × TaskReq) :=
  if !(validateSecret stored r.secret) then Except.error (401, "Invalid secret")
  else if briefBlank r.brief then Except.error (400, "Brief cannot be empty")
  else if !(urlSchemeOk r.evaluationUrl) then Except.error (400, "Invalid evaluation URL")
  else Except.ok (Flow.build, r)

/-- `handle_revision` (`main.py` lines 785-822): secret, non-empty brief
and `round < 2` gates — the source performs no evaluation-URL check on
this endpoint — then dispatch of `process_revision_background` (the
update flow). -/
def handleRevision (stored : String) (r : TaskReq) : Except (Nat × String) (Flow × TaskReq) :=
  if !(validateSecret stored r.secret) then Except.error (401, "Invalid secret")
  else if briefBlank r.brief then Except.error (400, "Brief cannot be empty")
  else if r.round < 2 then Except.error (400, "Revision endpoint is for round 2+ only")
  else Except.ok (Flow.update, r)

/-! ## Notification retry loop (`main.notify_evaluation_api`,
lines 631-660).  Each attempt's outcome (a status code, or a
`requests`-level transport failure, both of which the source catches) is
an oracle indexed by the attempt number. -/

/-- Outcome of one `requests.post` to the evaluation URL. -/
inductive AttemptOutcome
  | status (code : Nat)
  | transportFailure
deriving DecidableEq

/-- `max_retries = 5` (`main.py` line 633). -/
def maxRetries : Nat := 5

/-- `base_delay = 1` (`main.py` line 634). -/
def baseDelay : Nat := 1

/-- An attempt succeeds exactly when it returns HTTP 200
(`main.py` line 645). -/
def attemptSucceeds : AttemptOutcome → Bool
  | AttemptOutcome.status code => code == 200
  | AttemptOutcome.transportFailure => false

/-- The retry loop of `notify_evaluation_api` (`main.py` lines 636-660):
`remaining` attempts are left (including the current one), `i` is the
current attempt index.  Returns `(success, attempts made, waits slept)`;
a wait of `base_delay * 2 ** attempt` is slept after every failed attempt
that is not the last (`attempt < max_retries - 1`). -/
def notifyGo (outcomes : Nat → AttemptOutcome) : Nat → Nat → Bool × Nat × List Nat
  | 0, _ => (false, 0, [])
  | remaining + 1, i =>
    if attemptSucceeds (outcomes i) then (true, 1, [])
    else if remaining == 0 then (false, 1, [])
    else
      let r := notifyGo outcomes remaining (i + 1)
      (r.1, r.2.1 + 1, baseDelay * 2 ^ i :: r.2.2)

/-- `notify_evaluation_api` (`main.py` lines 631-660): up to
`max_retries` attempts starting at attempt 0; returns `False` (never
raises past the caught outcomes) when all fail. -/
def notifyEvaluationApi (outcomes : Nat → AttemptOutcome) : Bool × Nat × List Nat :=
  notifyGo outcomes maxRetries 0

/-! ## Background pipelines (`main.process_task_background` lines
744-783 and `main.process_revision_background` lines 824-862).  The
outcomes of the generation, publish/update and notify calls are oracles;
the pipelines produce the ordered trace of steps whose external calls
were actually entered. -/

/-- Oracle for the three step outcomes of one background run. -/
structure PipeEnv where
  /-- Outcome of the `generate_app_code` call: the file map, or the
  exception text it raised. -/
  genOutcome : Except String (List (String × String))
  /-- Outcome of the `create_github_repo` / `update_github_repo` call:
  `(repo_url, pages_url)`, or the exception text it raised. -/
  publishOutcome : Except String (String × String)
  /-- Return value of `notify_evaluation_api`. -/
  notifyOk : Bool

/-- A pipeline step whose external call was entered. -/
inductive PipeStep
  | generating
  | publishing
  | notifying
deriving DecidableEq

/-- `process_task_background` (`main.py` lines 744-783): generate, then
create the repository, then notify; any exception from a step jumps to
the `except` block (which only logs), skipping the remaining steps. -/
def processTaskBackground (env : PipeEnv) : List PipeStep :=
  match env.genOutcome with
  | Except.error _ => [PipeStep.generating]
  | Except.ok _ =>
    match env.publishOutcome with
    | Except.error _ => [PipeStep.generating, PipeStep.publishing]
    | Except.ok _ => [PipeStep.generating, PipeStep.publishing, PipeStep.notifying]

/-- `process_revision_background` (`main.py` lines 824-862): identical
shape, with `update_github_repo` as the publishing step. -/
def processRevisionBackground (env : PipeEnv) : List PipeStep :=
  match env.genOutcome with
  | Except.error _ => [PipeStep.generating]
  | Except.ok _ =>
    match env.publishOutcome with
    | Except.error _ => [PipeStep.generating, PipeStep.publishing]
    | Except.ok _ => [PipeStep.generating, PipeStep.publishing, PipeStep.notifying]

/-! ## GitHub backend model and `create_github_repo`
(`main.py` lines 452-563).  The backend holds the set of repositories of
the authenticated user, each with the paths of its committed files.
`user.create_repo` raises a `GithubException` with status 422 when the
name is taken; `repo.create_file` raises 422 when the path already
exists — exactly the two conflict signals the source branches on. -/

/-- State of the authenticated user's repositories: name paired with the
committed file paths, most recently created first. -/
structure GithubState where
  repos : List (String × List String)
deriving DecidableEq

/-- Whether a repository of this name exists. -/
def reposHas (st : GithubState) (name : String) : Bool :=
  st.repos.any (fun p => p.1 == name)

/-- The committed file paths of a repository (empty when absent). -/
def repoPaths (st : GithubState) (name : String) : List String :=
  (st.repos.lookup name).getD []

/-- `user.create_repo(name, ...)`: 422 when the name is already taken,
otherwise a fresh empty repository. -/
def createRepo (st : GithubState) (name : String) : Except Nat GithubState :=
  if reposHas st name then Except.error 422
  else Except.ok ⟨(name, []) :: st.repos⟩

/-- `repo.create_file(path, message, content)`: 422 when the path already
exists in the repository, otherwise commit it. -/
def createFile (st : GithubState) (name path : String) : Except Nat GithubState :=
  if (repoPaths st name).contains path then Except.error 422
  else Except.ok ⟨st.repos.map (fun p => if p.1 == name then (p.1, path :: p.2) else p)⟩

/-- The per-file commit loop of `create_github_repo` (`main.py` lines
516-523): every file except `README.md` is committed; a 422
("file already exists") from `create_file` is swallowed (`continue`), any
other `GithubException` status is re-raised. -/
def commitFilesLoop (st : GithubState) (name : String) :
    List (String × String) → Except Nat GithubState
  | [] => Except.ok st
  | (filename, _content) :: rest =>
    if filename == "README.md" then commitFilesLoop st name rest
    else
      match createFile st name filename with
      | Except.ok st' => commitFilesLoop st' name rest
      | Except.error e =>
        if e == 422 then commitFilesLoop st name rest
        else Except.error e

/-- A fatal outcome of `create_github_repo`: a `GithubException` with its
status code, or the `KeyError` raised by the `files["README.md"]` lookup
(`main.py` line 470) when the file map has no README entry — the latter
is caught by the outer `except Exception` (line 561) and is equally
fatal to the call. -/
inductive PublishError
  | github (status : Nat)
  | keyError
deriving DecidableEq

/-- `create_github_repo` (`main.py` lines 452-563): create the
repository (fatal on failure), then commit the README via
`repo.create_file("README.md", commit_message, files["README.md"])`
(line 470) — the dict lookup raises `KeyError` when the map has no
`README.md` key, and the commit itself is unprotected, so both are fatal
— then best-effort commit of the Actions workflow file (lines 510-514,
exception swallowed), the per-file loop with 422 swallowing, best-effort
Pages enablement (lines 526-551, exception/non-201 swallowed, modelled as
a no-op on the state), then the deterministic URL pair. -/
def createGithubRepo (st : GithubState) (login repoName : String)
    (files : List (String × String)) :
    Except PublishError (GithubState × String × String) :=
  match createRepo st repoName with
  | Except.error e => Except.error (PublishError.github e)
  | Except.ok st1 =>
    match files.lookup "README.md" with
    | none => Except.error PublishError.keyError
    | some _readme =>
      match createFile st1 repoName "README.md" with
      | Except.error e => Except.error (PublishError.github e)
      | Except.ok st2 =>
        let st3 := match createFile st2 repoName ".github/workflows/deploy.yml" with
          | Except.ok s => s
          | Except.error _ => st2
        match commitFilesLoop st3 repoName files with
        | Except.error e => Except.error (PublishError.github e)
        | Except.ok st4 =>
          Except.ok (st4, "https://github.com/" ++ login ++ "/" ++ repoName,
            "https://" ++ login ++ ".github.io/" ++ repoName)

/-! ## Theorems -/

/-- C9: for every provider-oracle environment and every combination of
brief, checks and attachments (empty ones included), `generate_app_code`
returns a file mapping whose keys are exactly `index.html`, `styles.css`,
`script.js`, `README.md`, `LICENSE`, in that insertion order — no key
missing, no extra key. -/
theorem generate_file_keys_exact (env : ProviderEnv) (brief : String)
    (checks : List String) (attachments : List (String × String)) :
    (generateAppCode env brief checks attachments).2.map Prod.fst =
      ["index.html", "styles.css", "script.js", "README.md", "LICENSE"] := rfl

/-- C4 (amended): for every provider-oracle environment and all request
inputs, the generated file set contains the key `index.html`, whose
content is the extraction of the surviving provider text.  (The original
claim's non-emptiness fails: see the counterexample.) -/
theorem index_html_always_present (env : ProviderEnv) (brief : String)
    (checks : List String) (attachments : List (String × String)) :
    (generateAppCode env brief checks attachments).2.lookup "index.html" =
      some (String.mk (extractIndexHtml (llmGenerate env).2.data)) := rfl

/-- C4 counterexample: with no provider configured and both fallback
oracles returning the empty string, the empty provider text becomes an
empty `index.html`, refuting "its content is a non-empty string". -/
theorem index_html_empty_cex :
    (generateAppCode ⟨false, Except.ok "", "", ""⟩ "Create a calculator" [] []).2.lookup
      "index.html" = some "" := by decide

/-- C10: the build endpoint performs no round check: every request that
passes the secret, non-empty-brief and URL-scheme gates is accepted and
dispatched to the build (repository-creation) flow, whatever its round
value — never to the update flow. -/
theorem build_endpoint_ignores_round (stored : String) (r : TaskReq)
    (hs : validateSecret stored r.secret = true)
    (hb : briefBlank r.brief = false)
    (hu : urlSchemeOk r.evaluationUrl = true) :
    handleTask stored r = Except.ok (Flow.build, r) := by
  simp [handleTask, hs, hb, hu]

/-- C10 witness: concrete accepted requests with round 0 and round 7 are
both dispatched to the build flow. -/
theorem build_endpoint_ignores_round_witness :
    handleTask "s" ⟨"e", "s", "t", 0, "n", "hello", [], "https://cb.example/x", []⟩ =
      Except.ok (Flow.build, ⟨"e", "s", "t", 0, "n", "hello", [], "https://cb.example/x", []⟩) ∧
    handleTask "s" ⟨"e", "s", "t", 7, "n", "hello", [], "http://cb.example/x", []⟩ =
      Except.ok (Flow.build, ⟨"e", "s", "t", 7, "n", "hello", [], "http://cb.example/x", []⟩) :=
  ⟨build_endpoint_ignores_round "s" _ (by decide) (by decide) (by decide),
   build_endpoint_ignores_round "s" _ (by decide) (by decide) (by decide)⟩

/-- C2 counterexample: a Revise request with correct secret, non-empty
brief and round 2 but a malformed callback URL (`"not-a-url"`, failing
the scheme check used by the build endpoint) is nevertheless accepted and
dispatched — the revise gate performs no callback-URL check, refuting the
claim that every request with a malformed callback URL is rejected. -/
theorem revise_gate_url_unchecked_cex :
    handleRevision "s" ⟨"e", "s", "t", 2, "n", "hello", [], "not-a-url", []⟩ =
      Except.ok (Flow.update, ⟨"e", "s", "t", 2, "n", "hello", [], "not-a-url", []⟩) ∧
    urlSchemeOk "not-a-url" = false := by
  exact ⟨rfl, by decide⟩

/-- C2 (amended): the revise acceptance gate checks secret equality,
non-empty (stripped) brief, and round ≥ 2, in that order, rejecting
synchronously with the specific reason and dispatching nothing; in
particular every round-1 revise is rejected with the "round 2+" reason
regardless of the other fields.  It performs no callback-URL check, and
every request passing the three gates is dispatched to the update flow. -/
theorem revise_gate_checks (stored : String) (r : TaskReq) :
    (validateSecret stored r.secret = false →
      handleRevision stored r = Except.error (401, "Invalid secret")) ∧
    (validateSecret stored r.secret = true → briefBlank r.brief = true →
      handleRevision stored r = Except.error (400, "Brief cannot be empty")) ∧
    (validateSecret stored r.secret = true → briefBlank r.brief = false → r.round < 2 →
      handleRevision stored r = Except.error (400, "Revision endpoint is for round 2+ only")) ∧
    (validateSecret stored r.secret = true → briefBlank r.brief = false → 2 ≤ r.round →
      handleRevision stored r = Except.ok (Flow.update, r)) := by
  refine ⟨?_, ?_, ?_, ?_⟩ <;> intros h1
  · simp [handleRevision, h1]
  all_goals intro h2
  · simp [handleRevision, h1, h2]
  all_goals intro h3
  · simp [handleRevision, h1, h2, h3]
  · have : ¬ (r.round < 2) := by omega
    simp [handleRevision, h1, h2, this]

/-- C2 witness: a concrete round-1 revise with correct secret, non-empty
brief and a well-formed callback URL is rejected with the "round 2+"
reason. -/
theorem revise_gate_checks_witness :
    handleRevision "s" ⟨"e", "s", "t", 1, "n", "hello", [], "https://cb.example/x", []⟩ =
      Except.error (400, "Revision endpoint is for round 2+ only") :=
  (revise_gate_checks "s" _).2.2.1 (by decide) (by decide) (by decide)

/-- C1: whenever the primary provider is unconfigured or its invocation
raised an error, the chain invokes aipipe, and invokes DeepSeek after it
exactly when aipipe's output fails the conjunction of the two acceptance
criteria (non-empty and not `{`-initial; no `Generated Application`
marker in the first 200 characters) encoded by `aipipeAcceptable`;
otherwise aipipe's output is returned and DeepSeek is never invoked. -/
theorem fallback_chain_order (env : ProviderEnv)
    (h : env.openaiConfigured = false ∨ ∃ e, env.openaiOutcome = Except.error e) :
    ∃ pre, (pre = [] ∨ pre = [Provider.openai]) ∧
      ((aipipeAcceptable env.aipipeOutput = true ∧
        llmGenerate env = (pre ++ [Provider.aipipe], env.aipipeOutput)) ∨
       (aipipeAcceptable env.aipipeOutput = false ∧
        llmGenerate env = (pre ++ [Provider.aipipe, Provider.deepseek], env.deepseekOutput))) := by
  by_cases hc : env.openaiConfigured
  · rcases h with h | ⟨e, he⟩
    · rw [h] at hc; exact absurd hc (by simp)
    · refine ⟨[Provider.openai], Or.inr rfl, ?_⟩
      by_cases ha : aipipeAcceptable env.aipipeOutput
      · exact Or.inl ⟨ha, by simp [llmGenerate, hc, he, generateWithAipipe, ha]⟩
      · exact Or.inr ⟨by simpa using ha,
          by simp [llmGenerate, hc, he, generateWithAipipe, ha]⟩
  · refine ⟨[], Or.inl rfl, ?_⟩
    by_cases ha : aipipeAcceptable env.aipipeOutput
    · exact Or.inl ⟨ha, by simp [llmGenerate, hc, generateWithAipipe, ha]⟩
    · exact Or.inr ⟨by simpa using ha,
        by simp [llmGenerate, hc, generateWithAipipe, ha]⟩

/-- C1 witness: with no primary provider configured and an aipipe oracle
returning the empty string (failing acceptance criterion (a)), the chain
invokes aipipe then DeepSeek and returns DeepSeek's output. -/
theorem fallback_chain_order_witness :
    ∃ pre, (pre = [] ∨ pre = [Provider.openai]) ∧
      ((aipipeAcceptable (ProviderEnv.mk false (Except.ok "") "" "DS").aipipeOutput = true ∧
        llmGenerate ⟨false, Except.ok "", "", "DS"⟩ =
          (pre ++ [Provider.aipipe], (ProviderEnv.mk false (Except.ok "") "" "DS").aipipeOutput)) ∨
       (aipipeAcceptable (ProviderEnv.mk false (Except.ok "") "" "DS").aipipeOutput = false ∧
        llmGenerate ⟨false, Except.ok "", "", "DS"⟩ =
          (pre ++ [Provider.aipipe, Provider.deepseek],
            (ProviderEnv.mk false (Except.ok "") "" "DS").deepseekOutput))) :=
  fallback_chain_order ⟨false, Except.ok "", "", "DS"⟩ (Or.inl rfl)

/-- C7: in both background pipelines, an exception raised by the
generating or publishing step means the notifying step is never entered
(the callback URL is never invoked); conversely, the notifying step is
entered only when both preceding steps returned successfully. -/
theorem pipeline_failure_skips_notify (env : PipeEnv) :
    (((∃ e, env.genOutcome = Except.error e) ∨ (∃ e, env.publishOutcome = Except.error e)) →
      PipeStep.notifying ∉ processTaskBackground env ∧
      PipeStep.notifying ∉ processRevisionBackground env) ∧
    (PipeStep.notifying ∈ processTaskBackground env →
      env.genOutcome.isOk = true ∧ env.publishOutcome.isOk = true) ∧
    (PipeStep.notifying ∈ processRevisionBackground env →
      env.genOutcome.isOk = true ∧ env.publishOutcome.isOk = true) := by
  obtain ⟨g, p, n⟩ := env
  refine ⟨?_, ?_, ?_⟩ <;> cases g <;> cases p <;>
    simp [processTaskBackground, processRevisionBackground, Except.isOk, Except.toBool]

/-- C7 witness: when the generating step raises, neither pipeline reaches
the notifying step. -/
theorem pipeline_failure_skips_notify_witness :
    PipeStep.notifying ∉ processTaskBackground ⟨Except.error "boom", Except.ok ("u", "p"), true⟩ ∧
    PipeStep.notifying ∉ processRevisionBackground ⟨Except.error "boom", Except.ok ("u", "p"), true⟩ :=
  (pipeline_failure_skips_notify _).1 (Or.inl ⟨"boom", rfl⟩)

/-- Attempt-count bound of the notification retry loop: with `n` attempts
of fuel, at most `n` attempts are made. -/
theorem notifyGo_attempts_le (outcomes : Nat → AttemptOutcome) :
    ∀ n i, (notifyGo outcomes n i).2.1 ≤ n := by
  intro n
  induction n with
  | zero => intro i; simp [notifyGo]
  | succ m ih =>
    intro i
    by_cases hs : attemptSucceeds (outcomes i)
    · simp [notifyGo, hs]
    · by_cases hm : m = 0
      · simp [notifyGo, hs, hm]
      · simpa [notifyGo, hs, hm] using ih (i + 1)

/-- C6: `notify_evaluation_api` makes at most 5 delivery attempts, and
when every attempt fails (non-200 status or transport failure) it returns
`False` after exactly 5 attempts with the waits `1, 2, 4, 8` (that is,
`base_delay * 2 ^ i` after attempt `i`), totalling 15 time units. -/
theorem notify_retry_bound (outcomes : Nat → AttemptOutcome) :
    (notifyEvaluationApi outcomes).2.1 ≤ 5 ∧
    ((∀ i, i < 5 → attemptSucceeds (outcomes i) = false) →
      notifyEvaluationApi outcomes = (false, 5, [1, 2, 4, 8]) ∧
      (notifyEvaluationApi outcomes).2.2.sum = 15) := by
  constructor
  · exact notifyGo_attempts_le outcomes 5 0
  · intro h
    have e : notifyEvaluationApi outcomes = (false, 5, [1, 2, 4, 8]) := by
      simp [notifyEvaluationApi, maxRetries, notifyGo, baseDelay,
        h 0 (by norm_num), h 1 (by norm_num), h 2 (by norm_num),
        h 3 (by norm_num), h 4 (by norm_num)]
    exact ⟨e, by rw [e]; rfl⟩

/-- C6 witness: against a callback whose every attempt fails at transport
level, the loop returns `False` after 5 attempts with waits summing to
15. -/
theorem notify_retry_bound_witness :
    notifyEvaluationApi (fun _ => AttemptOutcome.transportFailure) = (false, 5, [1, 2, 4, 8]) ∧
    (notifyEvaluationApi (fun _ => AttemptOutcome.transportFailure)).2.2.sum = 15 :=
  (notify_retry_bound (fun _ => AttemptOutcome.transportFailure)).2 (fun _ _ => rfl)

/-- The per-file commit loop never aborts the call: in the modelled
backend the only `create_file` failure is the 422 "file already exists"
conflict, which the loop swallows (`continue`). -/
theorem commitFilesLoop_never_fails :
    ∀ (files : List (String × String)) (st : GithubState) (name : String),
      (commitFilesLoop st name files).isOk = true := by
  intro files
  induction files with
  | nil => intro st name; rfl
  | cons f rest ih =>
    intro st name
    obtain ⟨filename, content⟩ := f
    by_cases hr : filename == "README.md"
    · simp [commitFilesLoop, hr, ih]
    · by_cases hc : filename ∈ repoPaths st name
      · simp [commitFilesLoop, hr, createFile, hc, ih]
      · simp [commitFilesLoop, hr, createFile, hc, ih]

/-- C3 counterexample: publishing again under a name whose repository
already exists raises out of the publish operation — `user.create_repo`
fails with the 422 conflict, which `create_github_repo` converts into a
fatal error even for a complete generated file map, refuting "no step of
the second call is fatal". -/
theorem publish_existing_repo_cex :
    createGithubRepo ⟨[("llm-project-app-abc12345", ["README.md", "index.html"])]⟩
      "octocat" "llm-project-app-abc12345"
      [("README.md", "# App"), ("index.html", "<p>hi</p>")] =
      Except.error (PublishError.github 422) := rfl

/-- C3 (amended): calling publish when the repository already exists
fails fatally at the repository-creation step itself (GitHub 422); after
a successful creation, a file map without a `README.md` entry makes the
call fail fatally with the `KeyError` of the `files` lookup at
`main.py` line 470; and when the name is fresh and the file map (with
distinct keys, as every Python dict has) contains `README.md`, the call
never fails — every "file already exists" condition on a per-file commit
in the loop over non-README files (such as the workflow file already
committed at lines 510-514) is swallowed and treated as success for that
file only. -/
theorem publish_conflict_behavior (st : GithubState) (login name : String)
    (files : List (String × String)) :
    (reposHas st name = true →
      createGithubRepo st login name files = Except.error (PublishError.github 422)) ∧
    (reposHas st name = false → files.lookup "README.md" = none →
      createGithubRepo st login name files = Except.error PublishError.keyError) ∧
    (reposHas st name = false → (∃ c, files.lookup "README.md" = some c) →
      (files.map Prod.fst).Nodup →
      (createGithubRepo st login name files).isOk = true) := by
  refine ⟨?_, ?_, ?_⟩
  · intro h
    simp [createGithubRepo, createRepo, h]
  · intro h hnone
    simp [createGithubRepo, createRepo, h, hnone]
  · rintro h ⟨c, hc⟩ _hnodup
    unfold createGithubRepo
    split
    · next e heq =>
      rw [createRepo, if_neg (by simp [h])] at heq
      exact absurd heq (by simp)
    · next st1 heq =>
      rw [createRepo, if_neg (by simp [h])] at heq
      injection heq with heq1
      subst heq1
      have hp : repoPaths ⟨(name, []) :: st.repos⟩ name = [] := by
        simp [repoPaths, List.lookup]
      split
      · next heqL =>
        rw [hc] at heqL
        exact absurd heqL (by simp)
      · next readme heqL =>
        split
        · next e heq2 =>
          rw [createFile, hp, if_neg (by simp)] at heq2
          exact absurd heq2 (by simp)
        · next st2 heq2 =>
          split
          · next stw heqw =>
            dsimp only
            rcases h3 : commitFilesLoop stw name files with e | st4
            · have hok := commitFilesLoop_never_fails files stw name
              rw [h3] at hok
              exact absurd hok (by simp [Except.isOk, Except.toBool])
            · rfl
          · next heqw =>
            dsimp only
            rcases h3 : commitFilesLoop st2 name files with e | st4
            · have hok := commitFilesLoop_never_fails files st2 name
              rw [h3] at hok
              exact absurd hok (by simp [Except.isOk, Except.toBool])
            · rfl

/-- C3 witness: a concrete publish of a complete file map under a taken
name errors with the 422 conflict; a concrete README-less publish under
a fresh name errors with the `KeyError`; and a concrete publish of a
distinct-key file map with `README.md` and the workflow file (whose
per-file commit hits the swallowed 422, since `create_github_repo`
already committed that path) succeeds. -/
theorem publish_conflict_behavior_witness :
    createGithubRepo ⟨[("taken", ["README.md"])]⟩ "octocat" "taken"
      [("README.md", "# App")] = Except.error (PublishError.github 422) ∧
    createGithubRepo ⟨[]⟩ "octocat" "fresh" [("index.html", "<p>x</p>")] =
      Except.error PublishError.keyError ∧
    (createGithubRepo ⟨[]⟩ "octocat" "fresh"
      [("README.md", "# App"), ("index.html", "<p>x</p>"),
       (".github/workflows/deploy.yml", "name: Deploy")]).isOk = true :=
  ⟨(publish_conflict_behavior _ "octocat" "taken" _).1 rfl,
   (publish_conflict_behavior _ "octocat" "fresh" _).2.1 rfl rfl,
   (publish_conflict_behavior _ "octocat" "fresh" _).2.2 rfl ⟨"# App", rfl⟩ (by decide)⟩

/-- A character class for the task-derived part of a repository name:
lower-case letter, digit, or hyphen. -/
def lowerNameChar (c : Char) : Prop :=
  (97 ≤ c.toNat ∧ c.toNat ≤ 122) ∨ (48 ≤ c.toNat ∧ c.toNat ≤ 57) ∨ c = '-'

/-- `Char.ofNat` of a valid code point has that code point. -/
theorem char_toNat_ofNat_valid (n : Nat) (h : n.isValidChar) :
    (Char.ofNat n).toNat = n := by
  unfold Char.ofNat
  rw [dif_pos h]
  rfl

/-- Code point of `Char.toLower`: shifted by 32 on `A`-`Z`, unchanged
elsewhere. -/
theorem toLower_toNat (c : Char) :
    (Char.toLower c).toNat =
      if 65 ≤ c.toNat ∧ c.toNat ≤ 90 then c.toNat + 32 else c.toNat := by
  unfold Char.toLower
  by_cases h : 65 ≤ c.toNat ∧ c.toNat ≤ 90
  · rw [if_pos h, if_pos h]
    exact char_toNat_ofNat_valid _ (Or.inl (by omega))
  · rw [if_neg h, if_neg h]

/-- Each character produced by the lower-case-then-replace stage of
`sanitize_repo_name` is a lower-case letter, a digit, or a hyphen. -/
theorem replaced_lowerNameChar (c : Char) :
    lowerNameChar (if isRepoChar (Char.toLower c) then Char.toLower c else '-') := by
  by_cases h : isRepoChar (Char.toLower c)
  · rw [if_pos h]
    have ht := toLower_toNat c
    unfold isRepoChar at h
    simp only [Bool.or_eq_true, Bool.and_eq_true, decide_eq_true_eq, beq_iff_eq] at h
    unfold lowerNameChar
    rcases h with ((h1 | h2) | h3) | h4
    · exact Or.inl h1
    · exfalso
      by_cases hc : 65 ≤ c.toNat ∧ c.toNat ≤ 90
      · rw [if_pos hc] at ht; omega
      · rw [if_neg hc] at ht
        rcases not_and_or.mp hc with hh | hh <;> omega
    · exact Or.inr (Or.inl h3)
    · exact Or.inr (Or.inr h4)
  · rw [if_neg h]
    exact Or.inr (Or.inr rfl)

/-- Characters of `collapseHyphensAux` output come from its input. -/
theorem mem_collapseHyphensAux :
    ∀ (l : List Char) (b : Bool) (c : Char), c ∈ collapseHyphensAux b l → c ∈ l := by
  intro l
  induction l with
  | nil => intro b c hc; simp [collapseHyphensAux] at hc
  | cons a t ih =>
    intro b c hc
    by_cases ha : a == '-'
    · cases b with
      | false =>
        rw [collapseHyphensAux, if_pos ha, if_neg (by simp)] at hc
        rcases List.mem_cons.mp hc with hc | hc
        · subst hc
          exact List.mem_cons.mpr (Or.inl (beq_iff_eq.mp ha).symm)
        · exact List.mem_cons.mpr (Or.inr (ih true c hc))
      | true =>
        rw [collapseHyphensAux, if_pos ha, if_pos rfl] at hc
        exact List.mem_cons.mpr (Or.inr (ih true c hc))
    · rw [collapseHyphensAux, if_neg ha] at hc
      rcases List.mem_cons.mp hc with hc | hc
      · subst hc; exact List.mem_cons.mpr (Or.inl rfl)
      · exact List.mem_cons.mpr (Or.inr (ih false c hc))

/-- Characters of `stripHyphens` output come from its input. -/
theorem mem_stripHyphens (l : List Char) (c : Char) (hc : c ∈ stripHyphens l) : c ∈ l := by
  unfold stripHyphens at hc
  rw [List.mem_reverse] at hc
  have h1 := (List.dropWhile_sublist (fun x => x == '-')).subset hc
  rw [List.mem_reverse] at h1
  exact (List.dropWhile_sublist (fun x => x == '-')).subset h1

/-- The head of `collapseHyphensAux true l` is never a hyphen. -/
theorem collapseHyphensAux_true_head :
    ∀ (l : List Char) (c : Char) (t : List Char),
      collapseHyphensAux true l = c :: t → c ≠ '-' := by
  intro l
  induction l with
  | nil => intro c t h; simp [collapseHyphensAux] at h
  | cons a t' ih =>
    intro c t h
    by_cases ha : a == '-'
    · rw [collapseHyphensAux, if_pos ha, if_pos rfl] at h
      exact ih c t h
    · rw [collapseHyphensAux, if_neg ha] at h
      injection h with h1 _
      subst h1
      exact fun hee => ha (beq_iff_eq.mpr hee)

/-- `collapseHyphensAux` output has no two adjacent hyphens. -/
theorem chain'_collapseHyphensAux :
    ∀ (l : List Char) (b : Bool),
      List.Chain' (fun x y => ¬(x = '-' ∧ y = '-')) (collapseHyphensAux b l) := by
  intro l
  induction l with
  | nil => intro b; simp [collapseHyphensAux]
  | cons a t ih =>
    intro b
    by_cases ha : a == '-'
    · cases b with
      | false =>
        rw [collapseHyphensAux, if_pos ha, if_neg (by simp)]
        refine List.chain'_cons'.mpr ⟨?_, ih true⟩
        intro y hy
        cases hx : collapseHyphensAux true t with
        | nil => rw [hx] at hy; simp at hy
        | cons d rest =>
          rw [hx] at hy
          simp only [List.head?_cons, Option.mem_def, Option.some.injEq] at hy
          subst hy
          exact fun hp => collapseHyphensAux_true_head t d rest hx hp.2
      | true =>
        rw [collapseHyphensAux, if_pos ha, if_pos rfl]
        exact ih true
    · rw [collapseHyphensAux, if_neg ha]
      refine List.chain'_cons'.mpr ⟨?_, ih false⟩
      intro y hy
      exact fun hp => ha (beq_iff_eq.mpr hp.1)

/-- `stripHyphens` preserves hyphen-adjacency-freeness. -/
theorem chain'_stripHyphens (l : List Char)
    (h : List.Chain' (fun x y => ¬(x = '-' ∧ y = '-')) l) :
    List.Chain' (fun x y => ¬(x = '-' ∧ y = '-')) (stripHyphens l) := by
  unfold stripHyphens
  have h1 := h.suffix (List.dropWhile_suffix (fun x => x == '-'))
  have h2 : List.Chain' (flip (fun x y : Char => ¬(x = '-' ∧ y = '-')))
      (l.dropWhile (fun x => x == '-')) :=
    h1.imp (fun a b hab => fun hp => hab ⟨hp.2, hp.1⟩)
  have h3 := List.chain'_reverse.mpr h2
  have h4 := h3.suffix (List.dropWhile_suffix (fun x => x == '-'))
  have h5 : List.Chain' (flip (fun x y : Char => ¬(x = '-' ∧ y = '-')))
      ((l.dropWhile (fun x => x == '-')).reverse.dropWhile (fun x => x == '-')) :=
    h4.imp (fun a b hab => fun hp => hab ⟨hp.2, hp.1⟩)
  exact List.chain'_reverse.mpr h5

/-- C8 counterexample: the resulting name is not lowercase, and
non-alphanumeric runs of the nonce are not collapsed: the first 8 nonce
characters are appended verbatim, so nonce `"AB!!cd12"` produces a name
containing the upper-case run `AB` and the uncollapsed run `!!`. -/
theorem sanitize_repo_name_nonce_verbatim_cex :
    sanitizeRepoName "x" "AB!!cd12" = "llm-project-x-AB!!cd12" ∧
    ("llm-project-x-AB!!cd12".data.all (fun c => !c.isUpper)) = false := by
  constructor
  · rfl
  · decide

/-- C8 (amended): `sanitize_repo_name` is a pure deterministic function
of (task, nonce); the name is `llm-project-` followed by the task id
lower-cased with non-alphanumeric runs collapsed to single hyphens (its
characters are lower-case letters, digits or hyphens, with no two
adjacent hyphens), then a hyphen and the first 8 characters of the nonce
taken verbatim (not lower-cased or sanitized); e.g. task `"Test App!"`
with nonce `"abc12345xyz"` yields `"llm-project-test-app-abc12345"`,
ending in `abc12345`. -/
theorem sanitize_repo_name_spec (t₁ t₂ n₁ n₂ : String) :
    (t₁ = t₂ → n₁ = n₂ → sanitizeRepoName t₁ n₁ = sanitizeRepoName t₂ n₂) ∧
    (sanitizeRepoName t₁ n₁).data =
      ("llm-project-".data ++ sanitizedTaskPart t₁ ++ "-".data) ++ n₁.data.take 8 ∧
    (∀ c ∈ sanitizedTaskPart t₁, lowerNameChar c) ∧
    List.Chain' (fun x y => ¬(x = '-' ∧ y = '-')) (sanitizedTaskPart t₁) ∧
    sanitizeRepoName "Test App!" "abc12345xyz" = "llm-project-test-app-abc12345" := by
  refine ⟨?_, ?_, ?_, ?_, ?_⟩
  · intro h1 h2; rw [h1, h2]
  · simp [sanitizeRepoName]
  · intro c hc
    have h1 := mem_stripHyphens _ c hc
    have h2 := mem_collapseHyphensAux _ false c h1
    rw [List.map_map] at h2
    rcases List.mem_map.mp h2 with ⟨a, _, ha⟩
    rw [← ha]
    exact replaced_lowerNameChar a
  · exact chain'_stripHyphens _ (chain'_collapseHyphensAux _ false)
  · rfl

/-- C8 witness: the amended statement applied at the concrete example
inputs. -/
theorem sanitize_repo_name_spec_witness :
    sanitizeRepoName "Test App!" "abc12345xyz" = sanitizeRepoName "Test App!" "abc12345xyz" :=
  (sanitize_repo_name_spec "Test App!" "Test App!" "abc12345xyz" "abc12345xyz").1 rfl rfl

/-! ## Lemmas about the fence-extraction machinery (for C5). -/

/-- A character list without a backtick (`U+0060`), the first character
of both fence markers. -/
def tickFree (xs : List Char) : Prop := ∀ a ∈ xs, a ≠ '\x60'

instance (xs : List Char) : Decidable (tickFree xs) := by
  unfold tickFree
  infer_instance

/-- Every list starts with itself. -/
theorem charsStartWith_append_self (p r : List Char) :
    charsStartWith p (p ++ r) = true := by
  induction p with
  | nil => rfl
  | cons c cs ih => simp [charsStartWith, ih]

/-- A match at the very front makes `findSub` return 0. -/
theorem findSub_of_startsWith (p s : List Char) (h : charsStartWith p s = true) :
    findSub p s = some 0 := by
  cases s <;> simp [findSub, h]

/-- Scanning past a block that cannot contain the pattern's first
character shifts the found index by the block's length. -/
theorem findSub_append_of_notMem (p : List Char) (c0 : Char) (p' : List Char)
    (hp : p = c0 :: p') (xs r : List Char) (h : ∀ a ∈ xs, a ≠ c0) :
    findSub p (xs ++ r) = (findSub p r).map (· + xs.length) := by
  induction xs with
  | nil =>
    cases hr : findSub p r <;> simp [hr]
  | cons x t ih =>
    have hx : x ≠ c0 := h x (List.mem_cons_self x t)
    have hsw : charsStartWith p (x :: (t ++ r)) = false := by
      rw [hp]
      simp only [charsStartWith, Bool.and_eq_false_iff]
      exact Or.inl (beq_eq_false_iff_ne.mpr (fun he => hx he.symm))
    rw [List.cons_append, findSub, if_neg (by simp [hsw]),
      ih (fun a ha => h a (List.mem_cons_of_mem x ha))]
    cases hr : findSub p r <;> simp [hr]
    omega

/-- A list starting with `p ++ q` starts with `p`. -/
theorem startsWith_shorter (p q : List Char) :
    ∀ s : List Char, charsStartWith (p ++ q) s = true → charsStartWith p s = true := by
  induction p with
  | nil => intro s _; rfl
  | cons c cs ih =>
    intro s h
    cases s with
    | nil => simp [charsStartWith] at h
    | cons d ds =>
      simp only [List.cons_append, charsStartWith, Bool.and_eq_true] at h ⊢
      exact ⟨h.1, ih ds h.2⟩

/-- An occurrence of `p ++ q` yields an occurrence of `p`. -/
theorem findSub_isSome_shorter (p q : List Char) :
    ∀ s : List Char, (findSub (p ++ q) s).isSome = true → (findSub p s).isSome = true := by
  intro s
  induction s with
  | nil =>
    intro h
    rw [findSub] at h
    by_cases hs : charsStartWith (p ++ q) [] = true
    · rw [findSub, if_pos (startsWith_shorter p q [] hs)]; rfl
    · rw [if_neg hs] at h; simp at h
  | cons c cs ih =>
    intro h
    rw [findSub] at h
    by_cases hs : charsStartWith (p ++ q) (c :: cs) = true
    · rw [findSub, if_pos (startsWith_shorter p q _ hs)]; rfl
    · rw [if_neg hs] at h
      have h' : (findSub (p ++ q) cs).isSome = true := by
        cases hfq : findSub (p ++ q) cs
        · rw [hfq] at h; simp at h
        · rfl
      have h2 := ih h'
      rw [findSub]
      by_cases hcp : charsStartWith p (c :: cs) = true
      · rw [if_pos hcp]; rfl
      · rw [if_neg hcp]; simpa using h2

/-- Dropping a left factor's length removes exactly that factor. -/
theorem drop_append_length (xs ys : List Char) : (xs ++ ys).drop xs.length = ys := by
  induction xs with
  | nil => rfl
  | cons c cs ih => simp [ih]

/-- Taking a left factor's length keeps exactly that factor. -/
theorem take_append_length (xs ys : List Char) : (xs ++ ys).take xs.length = xs := by
  induction xs with
  | nil => rfl
  | cons c cs ih => simp [ih]

/-- Clamping an in-range non-negative index is the identity. -/
theorem clampIdx_of_nonneg_le (n : Nat) (i : Int) (h0 : 0 ≤ i) (hn : i ≤ n) :
    clampIdx n i = i.toNat := by
  unfold clampIdx
  rw [if_neg (by omega)]
  omega

/-- The two fence markers in head-cons form. -/
theorem fenceHtml_eq : fenceHtml = '\x60' :: "``html".data := rfl

/-- The plain fence marker in head-cons form. -/
theorem fence_eq : fence = '\x60' :: "``".data := rfl

/-- In a text of shape `pre ++ "```html" ++ body ++ "```" ++ post` with
backtick-free `pre` and `body`, extraction yields the whitespace-stripped
`body`. -/
theorem extract_html_branch (pre body post : List Char)
    (hpre : tickFree pre) (hbody : tickFree body) :
    extractIndexHtml (pre ++ fenceHtml ++ body ++ fence ++ post) = pyStrip body := by
  have hlen7 : fenceHtml.length = 7 := rfl
  have hlen3 : fence.length = 3 := rfl
  have hassoc : pre ++ fenceHtml ++ body ++ fence ++ post =
      pre ++ (fenceHtml ++ (body ++ (fence ++ post))) := by
    simp [List.append_assoc]
  rw [hassoc]
  have hfindHtml : findSub fenceHtml
      (pre ++ (fenceHtml ++ (body ++ (fence ++ post)))) = some pre.length := by
    rw [findSub_append_of_notMem fenceHtml '\x60' "``html".data fenceHtml_eq pre _ hpre,
      findSub_of_startsWith _ _ (charsStartWith_append_self _ _)]
    simp
  have hfindClose : findSub fence (body ++ (fence ++ post)) = some body.length := by
    rw [findSub_append_of_notMem fence '\x60' "``".data fence_eq body _ hbody,
      findSub_of_startsWith _ _ (charsStartWith_append_self _ _)]
    simp
  have hn : (pre ++ (fenceHtml ++ (body ++ (fence ++ post)))).length =
      pre.length + 7 + body.length + 3 + post.length := by
    simp only [List.length_append, hlen7, hlen3]
    omega
  have hstart : pyFindFrom (pre ++ (fenceHtml ++ (body ++ (fence ++ post)))) fenceHtml 0 =
      (pre.length : Int) := by
    unfold pyFindFrom
    rw [clampIdx_of_nonneg_le _ 0 (by omega) (by omega)]
    simp [hfindHtml]
  have hdropC : (pre ++ (fenceHtml ++ (body ++ (fence ++ post)))).drop (pre.length + 7) =
      body ++ (fence ++ post) := by
    rw [show pre ++ (fenceHtml ++ (body ++ (fence ++ post))) =
      (pre ++ fenceHtml) ++ (body ++ (fence ++ post)) by simp,
      show pre.length + 7 = (pre ++ fenceHtml).length by simp [hlen7]]
    exact drop_append_length _ _
  have hclampS : clampIdx (pre ++ (fenceHtml ++ (body ++ (fence ++ post)))).length
      ((pre.length : Int) + 7) = pre.length + 7 := by
    rw [clampIdx_of_nonneg_le _ _ (by omega) (by rw [hn]; omega)]
    omega
  have hend : pyFindFrom (pre ++ (fenceHtml ++ (body ++ (fence ++ post)))) fence
      ((pre.length : Int) + 7) = ((body.length + (pre.length + 7) : Nat) : Int) := by
    unfold pyFindFrom
    rw [hclampS]
    dsimp only
    rw [hdropC, hfindClose]
  have hslice : pySlice (pre ++ (fenceHtml ++ (body ++ (fence ++ post))))
      ((pre.length : Int) + 7) ((body.length + (pre.length + 7) : Nat) : Int) = body := by
    unfold pySlice
    dsimp only
    rw [hclampS, clampIdx_of_nonneg_le _ _ (by omega) (by rw [hn]; omega)]
    rw [show ((body.length + (pre.length + 7) : Nat) : Int).toNat =
      ((pre ++ fenceHtml) ++ body).length by
        simp only [List.length_append, hlen7]; omega]
    rw [show pre ++ (fenceHtml ++ (body ++ (fence ++ post))) =
      ((pre ++ fenceHtml) ++ body) ++ (fence ++ post) by simp,
      take_append_length]
    rw [show pre.length + 7 = (pre ++ fenceHtml).length by simp [hlen7]]
    exact drop_append_length _ _
  have hhas : hasSub fenceHtml (pre ++ (fenceHtml ++ (body ++ (fence ++ post)))) = true := by
    rw [hasSub, hfindHtml]; rfl
  unfold extractIndexHtml
  rw [if_pos hhas]
  dsimp only
  rw [hstart, hend, hslice]

/-- In a text of shape `pre ++ "```" ++ body ++ "```" ++ post` with
backtick-free `pre` and `body` and no `"```html"` occurrence anywhere,
extraction yields the whitespace-stripped `body`. -/
theorem extract_plain_branch (pre body post : List Char)
    (hpre : tickFree pre) (hbody : tickFree body)
    (hhtml : hasSub fenceHtml (pre ++ fence ++ body ++ fence ++ post) = false) :
    extractIndexHtml (pre ++ fence ++ body ++ fence ++ post) = pyStrip body := by
  have hlen3 : fence.length = 3 := rfl
  have hassoc : pre ++ fence ++ body ++ fence ++ post =
      pre ++ (fence ++ (body ++ (fence ++ post))) := by
    simp [List.append_assoc]
  rw [hassoc] at hhtml ⊢
  have hfindOpen : findSub fence
      (pre ++ (fence ++ (body ++ (fence ++ post)))) = some pre.length := by
    rw [findSub_append_of_notMem fence '\x60' "``".data fence_eq pre _ hpre,
      findSub_of_startsWith _ _ (charsStartWith_append_self _ _)]
    simp
  have hfindClose : findSub fence (body ++ (fence ++ post)) = some body.length := by
    rw [findSub_append_of_notMem fence '\x60' "``".data fence_eq body _ hbody,
      findSub_of_startsWith _ _ (charsStartWith_append_self _ _)]
    simp
  have hn : (pre ++ (fence ++ (body ++ (fence ++ post)))).length =
      pre.length + 3 + body.length + 3 + post.length := by
    simp only [List.length_append, hlen3]
    omega
  have hstart : pyFindFrom (pre ++ (fence ++ (body ++ (fence ++ post)))) fence 0 =
      (pre.length : Int) := by
    unfold pyFindFrom
    rw [clampIdx_of_nonneg_le _ 0 (by omega) (by omega)]
    simp [hfindOpen]
  have hdropC : (pre ++ (fence ++ (body ++ (fence ++ post)))).drop (pre.length + 3) =
      body ++ (fence ++ post) := by
    rw [show pre ++ (fence ++ (body ++ (fence ++ post))) =
      (pre ++ fence) ++ (body ++ (fence ++ post)) by simp,
      show pre.length + 3 = (pre ++ fence).length by simp [hlen3]]
    exact drop_append_length _ _
  have hclampS : clampIdx (pre ++ (fence ++ (body ++ (fence ++ post)))).length
      ((pre.length : Int) + 3) = pre.length + 3 := by
    rw [clampIdx_of_nonneg_le _ _ (by omega) (by rw [hn]; omega)]
    omega
  have hend : pyFindFrom (pre ++ (fence ++ (body ++ (fence ++ post)))) fence
      ((pre.length : Int) + 3) = ((body.length + (pre.length + 3) : Nat) : Int) := by
    unfold pyFindFrom
    rw [hclampS]
    dsimp only
    rw [hdropC, hfindClose]
  have hslice : pySlice (pre ++ (fence ++ (body ++ (fence ++ post))))
      ((pre.length : Int) + 3) ((body.length + (pre.length + 3) : Nat) : Int) = body := by
    unfold pySlice
    dsimp only
    rw [hclampS, clampIdx_of_nonneg_le _ _ (by omega) (by rw [hn]; omega)]
    rw [show ((body.length + (pre.length + 3) : Nat) : Int).toNat =
      ((pre ++ fence) ++ body).length by
        simp only [List.length_append, hlen3]; omega]
    rw [show pre ++ (fence ++ (body ++ (fence ++ post))) =
      ((pre ++ fence) ++ body) ++ (fence ++ post) by simp,
      take_append_length]
    rw [show pre.length + 3 = (pre ++ fence).length by simp [hlen3]]
    exact drop_append_length _ _
  have hhas : hasSub fence (pre ++ (fence ++ (body ++ (fence ++ post)))) = true := by
    rw [hasSub, hfindOpen]; rfl
  unfold extractIndexHtml
  rw [if_neg (by simp [hhtml]), if_pos hhas]
  dsimp only
  rw [hstart, hend, hslice]

/-- A text with no `"```"` also has no `"```html"`, and passes through
extraction unchanged. -/
theorem extract_no_fence (s : List Char) (h : hasSub fence s = false) :
    extractIndexHtml s = s := by
  have h2 : hasSub fenceHtml s = false := by
    by_contra hc
    have hc2 : (findSub (fence ++ "html".data) s).isSome = true := by
      have : hasSub fenceHtml s = true := by
        cases hx : hasSub fenceHtml s
        · exact absurd hx hc
        · rfl
      rwa [hasSub] at this
    have := findSub_isSome_shorter fence "html".data s hc2
    rw [hasSub, this] at h
    exact absurd h (by simp)
  rw [extractIndexHtml, if_neg (by simp [h2]), if_neg (by simp [h])]

/-- C5 counterexample: in the text `"```\nA\n```\n```html\nB\n```"` the
first fenced block's contents are `"\nA\n"`, yet extraction yields `"B"`
(the code prefers the first ` ```html `-marked block over the earlier
plain fence, and strips surrounding whitespace), refuting "the contents
of the first fenced block in the text are extracted verbatim". -/
theorem extract_not_first_block_cex :
    String.mk (extractIndexHtml ("```\nA\n```\n```html\nB\n```".data)) = "B" ∧
    ("B" : String) ≠ "\nA\n" := by
  constructor
  · decide
  · decide

/-- C5 (amended): if the text contains `"```html"`, the segment after the
first `"```html"` marker up to the next fence, whitespace-stripped,
becomes `index.html` (shown for texts `pre ++ "```html" ++ body ++ "```"
++ post` with backtick-free `pre` and `body`); otherwise, if it contains
`"```"`, the first fenced segment, whitespace-stripped (shown likewise);
and every text without fence markers becomes `index.html` entirely
unchanged. -/
theorem extract_block_spec :
    (∀ pre body post : List Char, tickFree pre → tickFree body →
      extractIndexHtml (pre ++ fenceHtml ++ body ++ fence ++ post) = pyStrip body) ∧
    (∀ pre body post : List Char, tickFree pre → tickFree body →
      hasSub fenceHtml (pre ++ fence ++ body ++ fence ++ post) = false →
      extractIndexHtml (pre ++ fence ++ body ++ fence ++ post) = pyStrip body) ∧
    (∀ s : List Char, hasSub fence s = false → extractIndexHtml s = s) :=
  ⟨extract_html_branch, extract_plain_branch, extract_no_fence⟩

/-- C5 witness: the amended statement applied to concrete texts for each
of the three branches. -/
theorem extract_block_spec_witness :
    extractIndexHtml ("x: ".data ++ fenceHtml ++ "\n<p>B</p>\n".data ++ fence ++ " y".data) =
      pyStrip "\n<p>B</p>\n".data ∧
    extractIndexHtml ("x: ".data ++ fence ++ "\n<p>C</p>\n".data ++ fence ++ " y".data) =
      pyStrip "\n<p>C</p>\n".data ∧
    extractIndexHtml "plain text".data = "plain text".data :=
  ⟨extract_block_spec.1 "x: ".data "\n<p>B</p>\n".data " y".data (by decide) (by decide),
   extract_block_spec.2.1 "x: ".data "\n<p>C</p>\n".data " y".data
     (by decide) (by decide) (by decide),
   extract_block_spec.2.2 "plain text".data (by decide)⟩

end Project1Tds
